import Mathlib

/-!
Verification of the core data transformations of the Lebanon tourism
dashboard (`src/app.py`): the Aggregator `process_infrastructure_data`,
the facility-count derivation `process_facility_counts`, and the
Correlator `create_facility_correlation_chart` (its data part: the
threshold filter, the selected-facilities size series, and the
Pearson/trend-line statistics; chart layout is presentation and out of
scope).

Tables are embedded as a list of column names plus rows of cells aligned
with those names.  A cell is a rational number, a non-numeric string
(such as a placeholder), or NA (pandas NaN / missing value).  Column
access `df[c]` fails (pandas `KeyError`) when `c` is not among the
columns, so operations that perform unguarded column access return
`Option`.  Python float arithmetic is embedded exactly over `ℚ`; the
Pearson coefficient, which involves a square root, is expressed over `ℝ`
from the rational sums that the code computes.
-/

/-- Cell of a table: a numeric value, a non-numeric string (a placeholder
that `pd.to_numeric(errors := coerce)` turns into NaN), or NA. -/
inductive Value where
  | num (q : ℚ)
  | str (s : String)
  | na
  deriving DecidableEq, Repr

/-- Tabular dataset: named columns and rows of cells aligned with the
column list (pandas DataFrame). -/
structure DataFrame where
  cols : List String
  rows : List (List Value)
  deriving DecidableEq, Repr

namespace DataFrame

/-- Well-formed table: every row has exactly one cell per column. -/
def WF (df : DataFrame) : Prop :=
  ∀ r ∈ df.rows, r.length = df.cols.length

instance (df : DataFrame) : Decidable df.WF := by
  unfold WF; infer_instance

/-- Column lookup `df[c]`: `none` models the pandas `KeyError` raised
when `c` is not a column; otherwise the list of that column's cells. -/
def getCol (df : DataFrame) (c : String) : Option (List Value) :=
  (df.cols.findIdx? (· == c)).map fun i => df.rows.map fun r => r.getD i Value.na

/-- Column assignment `df[c] = vals`: overwrites the column in place when
`c` already exists, otherwise appends a new column (pandas semantics). -/
def setCol (df : DataFrame) (c : String) (vals : List Value) : DataFrame :=
  match df.cols.findIdx? (· == c) with
  | some i => ⟨df.cols, (df.rows.zip vals).map fun rv => rv.1.set i rv.2⟩
  | none => ⟨df.cols ++ [c], (df.rows.zip vals).map fun rv => rv.1 ++ [rv.2]⟩

/-- Boolean-mask row filter `df[p(df[c])]`: keeps the rows whose cell in
column `c` satisfies `p`, in their original order; `none` models the
`KeyError` when `c` is absent. -/
def filterByCol (df : DataFrame) (c : String) (p : Value → Bool) :
    Option DataFrame :=
  (df.cols.findIdx? (· == c)).map fun i =>
    ⟨df.cols, df.rows.filter fun r => p (r.getD i Value.na)⟩

end DataFrame

/-- Numeric reading of a cell for `Series.sum()`: numeric cells
contribute their value and NA contributes nothing (pandas skips NaN);
the summed flag columns hold numbers or NA, so a string also adds 0. -/
def cellNum : Value → ℚ
  | .num q => q
  | .str _ => 0
  | .na => 0

/-- Sum of a column, `df[c].sum()`; only applied under an
`c in df.columns` guard in the source, and 0 on an absent column keeps
it total. -/
def colSum (df : DataFrame) (c : String) : ℚ :=
  match df.getCol c with
  | some vs => (vs.map cellNum).sum
  | none => 0

/-- The `infrastructure_mapping` dict of `process_infrastructure_data`:
category name, exists column, does-not-exist column, in source order. -/
def infrastructure_mapping : List (String × String × String) :=
  [("Hotels", "Existence of hotels - exists",
    "Existence of hotels - does not exist"),
   ("Restaurants", "Existence of restaurants - exists",
    "Existence of restaurants - does not exist"),
   ("Cafes", "Existence of cafes - exists",
    "Existence of cafes - does not exist"),
   ("Guest Houses", "Existence of guest houses - exists",
    "Existence of guest houses - does not exist"),
   ("Tourist Attractions",
    "Existence of touristic attractions prone to be exploited and developed - exists",
    "Existence of touristic attractions that can be expolited and developed - does not exist")]

/-- One output row of the Aggregator. -/
structure CategorySummary where
  category : String
  towns_with : ℚ
  towns_without : ℚ
  total_towns : ℚ
  availability_percentage : ℚ
  deriving DecidableEq, Repr

/-- The Aggregator `process_infrastructure_data` (src/app.py:206): for
each configured category, sum the exists and does-not-exist columns
(0 when the column is absent), and derive total and percentage
(0 when the total is 0). -/
def process_infrastructure_data (df : DataFrame) : List CategorySummary :=
  infrastructure_mapping.map fun entry =>
    let exists_count := if df.cols.contains entry.2.1 then colSum df entry.2.1 else 0
    let not_exists_count := if df.cols.contains entry.2.2 then colSum df entry.2.2 else 0
    let total := exists_count + not_exists_count
    let percentage := if total > 0 then exists_count / total * 100 else 0
    { category := entry.1
      towns_with := exists_count
      towns_without := not_exists_count
      total_towns := total
      availability_percentage := percentage }

/-- The coercion `pd.to_numeric(s, errors := coerce).fillna(0)` applied
cell-wise: numbers pass through, non-numeric strings become NaN and then
0, NA becomes 0. -/
def toNumericFill0 (v : Value) : ℚ :=
  match v with
  | .num q => q
  | .str _ => 0
  | .na => 0

/-- The facility-count derivation `process_facility_counts`
(src/app.py:235): copies the input, derives the four coerced count
columns and their `Total_Facilities` sum, and keeps the rows with a
positive total.  The four source columns are read unguarded, so a
missing one is a `KeyError` (`none`). -/
def process_facility_counts (df : DataFrame) : Option DataFrame := do
  let hotels ← df.getCol "Total number of hotels"
  let restaurants ← df.getCol "Total number of restaurants"
  let cafes ← df.getCol "Total number of cafes"
  let guest_houses ← df.getCol "Total number of guest houses"
  let hotelsN := hotels.map toNumericFill0
  let restaurantsN := restaurants.map toNumericFill0
  let cafesN := cafes.map toNumericFill0
  let guestHousesN := guest_houses.map toNumericFill0
  let totals := (hotelsN.zip (restaurantsN.zip (cafesN.zip guestHousesN))).map
    fun t => t.1 + t.2.1 + t.2.2.1 + t.2.2.2
  let df1 := df.setCol "Total_Hotels" (hotelsN.map Value.num)
  let df2 := df1.setCol "Total_Restaurants" (restaurantsN.map Value.num)
  let df3 := df2.setCol "Total_Cafes" (cafesN.map Value.num)
  let df4 := df3.setCol "Total_Guest_Houses" (guestHousesN.map Value.num)
  let df5 := df4.setCol "Total_Facilities" (totals.map Value.num)
  df5.filterByCol "Total_Facilities" fun v => cellNum v > 0

/-- Pandas comparison `cell >= m` used by the boolean row mask: numeric
cells compare numerically, NaN compares false. -/
def valGe (v : Value) (m : ℚ) : Bool :=
  match v with
  | .num q => m ≤ q
  | .str _ => false
  | .na => false

/-- Arithmetic mean of a series (`np.mean`); the code only evaluates it
on series of length at least 2. -/
def seriesMean (xs : List ℚ) : ℚ :=
  xs.sum / xs.length

/-- Centered product sum Σ (x - x̄)(y - ȳ), the shared numerator of
`np.corrcoef` and the degree-1 `np.polyfit`. -/
def covSum (xs ys : List ℚ) : ℚ :=
  ((xs.zip ys).map fun p => (p.1 - seriesMean xs) * (p.2 - seriesMean ys)).sum

/-- Centered square sum Σ (x - x̄)², the variance part of the Pearson
denominator and the polyfit normal equation. -/
def varSum (xs : List ℚ) : ℚ :=
  (xs.map fun x => (x - seriesMean xs) ^ 2).sum

/-- Statistics attached to the trend-line trace: the centered sums
behind `np.corrcoef(xs, ys)[0,1]`, and the least-squares slope and
intercept of `np.polyfit(xs, ys, 1)` in closed form (valid whenever the
x series is not constant). -/
structure TrendStats where
  cov : ℚ
  varX : ℚ
  varY : ℚ
  slope : ℚ
  intercept : ℚ
  deriving DecidableEq, Repr

/-- Build the trend statistics from the two numeric series, as the code
does at the guard point (src/app.py:427-430). -/
def mkTrendStats (xs ys : List ℚ) : TrendStats :=
  { cov := covSum xs ys
    varX := varSum xs
    varY := varSum ys
    slope := covSum xs ys / varSum xs
    intercept := seriesMean ys - covSum xs ys / varSum xs * seriesMean xs }

/-- Pearson coefficient `np.corrcoef` computes from those sums:
cov / (√varX · √varY); its denominator is 0 (NaN in floating point) when
either series is constant. -/
noncomputable def pearson (s : TrendStats) : ℝ :=
  (s.cov : ℝ) / (Real.sqrt s.varX * Real.sqrt s.varY)

/-- Data content of the Correlator's scatter chart and its second return
value. -/
structure CorrChart where
  xs : List ℚ
  ys : List ℚ
  sizes : List ℚ
  towns : List Value
  stats : Option TrendStats
  filtered : DataFrame
  deriving Repr

/-- Helper for the `size_column` accumulation: when the facility type is
selected, add that column of the filtered table (a `KeyError` if it is
absent), else leave the accumulator. -/
def addSizeCol (df : DataFrame) (sel : Bool) (c : String) (acc : List ℚ) :
    Option (List ℚ) :=
  if sel then do
    let vs ← df.getCol c
    return (acc.zip (vs.map cellNum)).map fun p => p.1 + p.2
  else
    return acc

/-- The Correlator `create_facility_correlation_chart` (src/app.py:377),
data part: filter the table by the minimum-total threshold, accumulate
the selected-facilities size series, read the hotel, restaurant and town
series for the scatter trace, and attach the Pearson/trend statistics
exactly when `show_correlation` is set and more than one row remains. -/
def create_facility_correlation_chart (df : DataFrame) (min_facilities : ℚ)
    (facility_types : List String) (show_correlation : Bool) :
    Option CorrChart := do
  let filtered0 ← df.filterByCol "Total_Facilities" fun v => valGe v min_facilities
  let s0 : List ℚ := List.replicate filtered0.rows.length 0
  let s1 ← addSizeCol filtered0 (facility_types.contains "Hotels") "Total_Hotels" s0
  let s2 ← addSizeCol filtered0 (facility_types.contains "Restaurants") "Total_Restaurants" s1
  let s3 ← addSizeCol filtered0 (facility_types.contains "Cafes") "Total_Cafes" s2
  let s4 ← addSizeCol filtered0 (facility_types.contains "Guest Houses") "Total_Guest_Houses" s3
  let filtered := filtered0.setCol "Selected_Facilities" (s4.map Value.num)
  let xs ← filtered.getCol "Total_Hotels"
  let ys ← filtered.getCol "Total_Restaurants"
  let towns ← filtered.getCol "Town"
  let xsN := xs.map cellNum
  let ysN := ys.map cellNum
  let stats :=
    if show_correlation ∧ filtered.rows.length > 1 then
      some (mkTrendStats xsN ysN)
    else
      none
  return { xs := xsN, ys := ysN, sizes := s4, towns := towns,
           stats := stats, filtered := filtered }

/-!
Row-level descriptions of the two derivations, used to state the claims:
the cell of a row in a named column, the coerced facility counts and
their total, the extension a row undergoes in `process_facility_counts`,
and the rows kept by the Correlator's threshold filter.
-/

/-- Cell of row `r` in the column named `c` of a table whose column list
is `cols` (`Value.na` when the column is absent). -/
def cellVal (cols : List String) (c : String) (r : List Value) : Value :=
  match cols.findIdx? (· == c) with
  | some i => r.getD i Value.na
  | none => Value.na

/-- Coerced count of one source column in one row. -/
def pfcCoerce (cols : List String) (c : String) (r : List Value) : ℚ :=
  toNumericFill0 (cellVal cols c r)

/-- Row-level `Total_Facilities`: the sum of the four coerced counts. -/
def pfcTotal (cols : List String) (r : List Value) : ℚ :=
  pfcCoerce cols "Total number of hotels" r
    + pfcCoerce cols "Total number of restaurants" r
    + pfcCoerce cols "Total number of cafes" r
    + pfcCoerce cols "Total number of guest houses" r

/-- The five columns `process_facility_counts` appends, in order. -/
def pfcDerivedCols : List String :=
  ["Total_Hotels", "Total_Restaurants", "Total_Cafes",
   "Total_Guest_Houses", "Total_Facilities"]

/-- Cells `process_facility_counts` appends to one row. -/
def pfcExtend (cols : List String) (r : List Value) : List Value :=
  r ++ [Value.num (pfcCoerce cols "Total number of hotels" r),
        Value.num (pfcCoerce cols "Total number of restaurants" r),
        Value.num (pfcCoerce cols "Total number of cafes" r),
        Value.num (pfcCoerce cols "Total number of guest houses" r),
        Value.num (pfcTotal cols r)]

/-- Rows of `df` that pass the Correlator's minimum-total filter, in
their original order. -/
def keptRows (df : DataFrame) (m : ℚ) : List (List Value) :=
  df.rows.filter fun r => valGe (cellVal df.cols "Total_Facilities" r) m

/-- Row-level selected-facilities size: the sum of the counts of the
caller-chosen facility types. -/
def sizeOfRow (cols : List String) (types : List String) (r : List Value) : ℚ :=
  (if types.contains "Hotels" then cellNum (cellVal cols "Total_Hotels" r) else 0)
    + (if types.contains "Restaurants" then cellNum (cellVal cols "Total_Restaurants" r) else 0)
    + (if types.contains "Cafes" then cellNum (cellVal cols "Total_Cafes" r) else 0)
    + (if types.contains "Guest Houses" then cellNum (cellVal cols "Total_Guest_Houses" r) else 0)

/-!
General lemmas about column lookup, column assignment and zipped maps.
-/

theorem findIdx?_of_mem {c : String} {l : List String} (h : c ∈ l) :
    ∃ i, l.findIdx? (· == c) = some i ∧ i < l.length := by
  have hs : (l.findIdx? (· == c)).isSome = true := by
    rw [List.findIdx?_isSome, List.any_eq_true]
    exact ⟨c, h, by simp⟩
  obtain ⟨i, hi⟩ := Option.isSome_iff_exists.1 hs
  exact ⟨i, hi, (List.findIdx?_eq_some_iff_findIdx_eq.1 hi).1⟩

theorem findIdx?_of_not_mem {c : String} {l : List String} (h : c ∉ l) :
    l.findIdx? (· == c) = none := by
  rw [List.findIdx?_eq_none_iff]
  intro x hx
  simp only [beq_eq_false_iff_ne, ne_eq]
  rintro rfl
  exact h hx

theorem not_mem_append_of {c : String} {l₁ l₂ : List String}
    (h₁ : c ∉ l₁) (h₂ : c ∉ l₂) : c ∉ l₁ ++ l₂ := by
  rw [List.mem_append]
  rintro (h | h)
  · exact h₁ h
  · exact h₂ h

theorem zipSelfMap {α γ δ : Type _} (g : α → γ) (h : α → γ → δ) :
    ∀ l : List α,
      ((l.zip (l.map g)).map fun p => h p.1 p.2) = l.map fun a => h a (g a)
  | [] => rfl
  | a :: t => by simp [zipSelfMap g h t]

theorem zipMapMap {α β γ δ : Type _} (f : α → β) (g : α → γ) (h : β → γ → δ)
    (l : List α) :
    (((l.map f).zip (l.map g)).map fun p => h p.1 p.2)
      = l.map fun a => h (f a) (g a) := by
  rw [List.zip_map']
  simp

theorem setCol_fresh (df : DataFrame) {c : String} (h : c ∉ df.cols)
    (vals : List Value) :
    df.setCol c vals
      = ⟨df.cols ++ [c], (df.rows.zip vals).map fun rv => rv.1 ++ [rv.2]⟩ := by
  unfold DataFrame.setCol
  rw [findIdx?_of_not_mem h]

theorem cols_setCol (df : DataFrame) (c : String) (vals : List Value) :
    (df.setCol c vals).cols = if c ∈ df.cols then df.cols else df.cols ++ [c] := by
  by_cases hc : c ∈ df.cols
  · rw [if_pos hc]
    unfold DataFrame.setCol
    cases h : df.cols.findIdx? (· == c) with
    | none =>
        rw [List.findIdx?_eq_none_iff] at h
        have := h c hc
        simp at this
    | some i => rfl
  · rw [if_neg hc, setCol_fresh df hc]

theorem rows_setCol_of_not_mem {df : DataFrame} {c : String}
    (h : c ∉ df.cols) (vals : List Value) :
    (df.setCol c vals).rows = (df.rows.zip vals).map fun rv => rv.1 ++ [rv.2] := by
  rw [setCol_fresh df h]

theorem zipAppendMap (g : List Value → Value) :
    ∀ l : List (List Value),
      ((l.zip (l.map g)).map fun rv => rv.1 ++ [rv.2]) = l.map fun r => r ++ [g r]
  | [] => rfl
  | a :: t => by simp [zipAppendMap g t]

theorem zipMapAppendMap (f : List Value → List Value) (g : List Value → Value)
    (l : List (List Value)) :
    (((l.map f).zip (l.map g)).map fun rv => rv.1 ++ [rv.2])
      = l.map fun r => f r ++ [g r] := by
  rw [List.zip_map']
  simp

theorem map_filter_congr {α β : Type _} {f g : α → β} {p q : α → Bool}
    (l : List α) (hp : ∀ a ∈ l, p a = q a) (hf : ∀ a ∈ l, f a = g a) :
    (l.filter p).map f = (l.filter q).map g := by
  rw [List.filter_congr hp]
  exact List.map_congr_left fun a ha => hf a (List.mem_of_mem_filter ha)

theorem mem_cols_setCol_self (df : DataFrame) (c : String) (v : List Value) :
    c ∈ (df.setCol c v).cols := by
  rw [cols_setCol]
  by_cases hc : c ∈ df.cols
  · rwa [if_pos hc]
  · rw [if_neg hc]
    simp

theorem filterByCol_isSome {df : DataFrame} {c : String} (h : c ∈ df.cols)
    (p : Value → Bool) : (df.filterByCol c p).isSome := by
  obtain ⟨i, hi, _⟩ := findIdx?_of_mem h
  simp [DataFrame.filterByCol, hi]

/-!
Characterization of `process_facility_counts`: it fails exactly when one
of the four source count columns is absent, and on a well-formed table
that does not already contain the five derived column names it appends
the coerced counts and keeps the rows with positive total.
-/

set_option maxHeartbeats 1000000 in
theorem process_facility_counts_eq (df : DataFrame) (hWF : df.WF)
    (hH : "Total number of hotels" ∈ df.cols)
    (hR : "Total number of restaurants" ∈ df.cols)
    (hC : "Total number of cafes" ∈ df.cols)
    (hG : "Total number of guest houses" ∈ df.cols)
    (hfresh : ∀ c ∈ pfcDerivedCols, c ∉ df.cols) :
    process_facility_counts df = some
      ⟨df.cols ++ pfcDerivedCols,
       (df.rows.filter fun r => decide (0 < pfcTotal df.cols r)).map
         (pfcExtend df.cols)⟩ := by
  obtain ⟨iH, hiH, hiHlt⟩ := findIdx?_of_mem hH
  obtain ⟨iR, hiR, hiRlt⟩ := findIdx?_of_mem hR
  obtain ⟨iC, hiC, hiClt⟩ := findIdx?_of_mem hC
  obtain ⟨iG, hiG, hiGlt⟩ := findIdx?_of_mem hG
  have fTH : "Total_Hotels" ∉ df.cols := hfresh _ (by simp [pfcDerivedCols])
  have fTR : "Total_Restaurants" ∉ df.cols := hfresh _ (by simp [pfcDerivedCols])
  have fTC : "Total_Cafes" ∉ df.cols := hfresh _ (by simp [pfcDerivedCols])
  have fTG : "Total_Guest_Houses" ∉ df.cols := hfresh _ (by simp [pfcDerivedCols])
  have fTF : "Total_Facilities" ∉ df.cols := hfresh _ (by simp [pfcDerivedCols])
  simp only [process_facility_counts, DataFrame.getCol, hiH, hiR, hiC, hiG,
    Option.map_some', Option.bind_eq_bind, Option.some_bind, List.map_map,
    DataFrame.filterByCol, cols_setCol, rows_setCol_of_not_mem,
    List.mem_append, List.mem_singleton, not_or, fTH, fTR, fTC, fTG, fTF,
    List.zip_map', zipAppendMap, zipMapAppendMap, List.append_assoc,
    List.singleton_append, List.cons_append, List.nil_append,
    List.findIdx?_append, findIdx?_of_not_mem fTF, Option.none_or,
    List.findIdx?_cons, List.filter_map, pfcDerivedCols, reduceIte,
    String.reduceEq, beq_iff_eq, or_self, or_false, false_or, List.mem_cons,
    List.not_mem_nil, not_false_eq_true]
  refine congrArg some (congrArg (DataFrame.mk _) ?_)
  refine map_filter_congr df.rows ?_ ?_
  · intro r hr
    have hlen := hWF r hr
    simp only [Function.comp, List.append_assoc, List.cons_append,
      List.singleton_append, List.nil_append]
    rw [List.getD_append_right _ _ _ _ (by omega)]
    have h4 : 0 + 1 + 1 + 1 + 1 + df.cols.length - r.length = 4 := by omega
    rw [h4]
    simp [cellNum, pfcTotal, pfcCoerce, cellVal, hiH, hiR, hiC, hiG]
  · intro r hr
    simp [Function.comp, pfcExtend, pfcTotal, pfcCoerce, cellVal,
      hiH, hiR, hiC, hiG, List.append_assoc]

theorem process_facility_counts_isSome_iff (df : DataFrame) :
    (process_facility_counts df).isSome = true ↔
      ("Total number of hotels" ∈ df.cols
        ∧ "Total number of restaurants" ∈ df.cols
        ∧ "Total number of cafes" ∈ df.cols
        ∧ "Total number of guest houses" ∈ df.cols) := by
  by_cases h1 : "Total number of hotels" ∈ df.cols
  case neg =>
    simp [process_facility_counts, DataFrame.getCol, findIdx?_of_not_mem h1, h1]
  by_cases h2 : "Total number of restaurants" ∈ df.cols
  case neg =>
    obtain ⟨i1, hi1, _⟩ := findIdx?_of_mem h1
    simp [process_facility_counts, DataFrame.getCol, hi1,
      findIdx?_of_not_mem h2, h2]
  by_cases h3 : "Total number of cafes" ∈ df.cols
  case neg =>
    obtain ⟨i1, hi1, _⟩ := findIdx?_of_mem h1
    obtain ⟨i2, hi2, _⟩ := findIdx?_of_mem h2
    simp [process_facility_counts, DataFrame.getCol, hi1, hi2,
      findIdx?_of_not_mem h3, h3]
  by_cases h4 : "Total number of guest houses" ∈ df.cols
  case neg =>
    obtain ⟨i1, hi1, _⟩ := findIdx?_of_mem h1
    obtain ⟨i2, hi2, _⟩ := findIdx?_of_mem h2
    obtain ⟨i3, hi3, _⟩ := findIdx?_of_mem h3
    simp [process_facility_counts, DataFrame.getCol, hi1, hi2, hi3,
      findIdx?_of_not_mem h4, h4]
  obtain ⟨i1, hi1, _⟩ := findIdx?_of_mem h1
  obtain ⟨i2, hi2, _⟩ := findIdx?_of_mem h2
  obtain ⟨i3, hi3, _⟩ := findIdx?_of_mem h3
  obtain ⟨i4, hi4, _⟩ := findIdx?_of_mem h4
  simp only [process_facility_counts, DataFrame.getCol, hi1, hi2, hi3, hi4,
    Option.map_some', Option.bind_eq_bind, Option.some_bind]
  simp only [h1, h2, h3, h4, and_self, iff_true]
  exact filterByCol_isSome (mem_cols_setCol_self _ _ _) _

theorem addSizeCol_eq {cols : List String} {rows : List (List Value)}
    {c : String} (hc : c ∈ cols) (sel : Bool) (g : List Value → ℚ) :
    addSizeCol ⟨cols, rows⟩ sel c (rows.map g) = some (rows.map fun r =>
      g r + if sel then cellNum (cellVal cols c r) else 0) := by
  obtain ⟨i, hi, _⟩ := findIdx?_of_mem hc
  cases sel with
  | false => simp [addSizeCol]
  | true =>
      simp only [addSizeCol, DataFrame.getCol, hi, Option.map_some',
        Option.bind_eq_bind, Option.some_bind, if_true, List.map_map,
        List.zip_map', List.map_map, Option.pure_def, Option.some.injEq]
      refine List.map_congr_left fun r hr => ?_
      simp [cellVal, hi, Function.comp]

set_option maxHeartbeats 1600000 in
theorem create_facility_correlation_chart_eq (df : DataFrame) (hWF : df.WF)
    (hTH : "Total_Hotels" ∈ df.cols) (hTR : "Total_Restaurants" ∈ df.cols)
    (hTC : "Total_Cafes" ∈ df.cols) (hTG : "Total_Guest_Houses" ∈ df.cols)
    (hTF : "Total_Facilities" ∈ df.cols) (hTown : "Town" ∈ df.cols)
    (hSF : "Selected_Facilities" ∉ df.cols)
    (m : ℚ) (types : List String) (sc : Bool) :
    create_facility_correlation_chart df m types sc = some
      { xs := (keptRows df m).map fun r => cellNum (cellVal df.cols "Total_Hotels" r)
        ys := (keptRows df m).map fun r => cellNum (cellVal df.cols "Total_Restaurants" r)
        sizes := (keptRows df m).map (sizeOfRow df.cols types)
        towns := (keptRows df m).map (cellVal df.cols "Town")
        stats :=
          if sc ∧ 1 < (keptRows df m).length then
            some (mkTrendStats
              ((keptRows df m).map fun r => cellNum (cellVal df.cols "Total_Hotels" r))
              ((keptRows df m).map fun r => cellNum (cellVal df.cols "Total_Restaurants" r)))
          else none
        filtered := ⟨df.cols ++ ["Selected_Facilities"],
          (keptRows df m).map fun r =>
            r ++ [Value.num (sizeOfRow df.cols types r)]⟩ } := by
  obtain ⟨iTH, hiTH, hiTHlt⟩ := findIdx?_of_mem hTH
  obtain ⟨iTR, hiTR, hiTRlt⟩ := findIdx?_of_mem hTR
  obtain ⟨iTC, hiTC, hiTClt⟩ := findIdx?_of_mem hTC
  obtain ⟨iTG, hiTG, hiTGlt⟩ := findIdx?_of_mem hTG
  obtain ⟨iTF, hiTF, hiTFlt⟩ := findIdx?_of_mem hTF
  obtain ⟨iTn, hiTn, hiTnlt⟩ := findIdx?_of_mem hTown
  have hkeptlen : ∀ r ∈ keptRows df m, r.length = df.cols.length := fun r hr =>
    hWF r (List.mem_of_mem_filter hr)
  have hkept : df.rows.filter (fun r => valGe (r.getD iTF Value.na) m)
      = keptRows df m := by
    refine List.filter_congr fun r hr => ?_
    simp [cellVal, hiTF]
  simp only [create_facility_correlation_chart, DataFrame.filterByCol, hiTF,
    Option.map_some', Option.bind_eq_bind, Option.some_bind]
  simp only [hkept]
  rw [show List.replicate (keptRows df m).length (0:ℚ)
      = (keptRows df m).map (Function.const _ 0) from (List.map_const _ _).symm]
  simp only [addSizeCol_eq hTH, addSizeCol_eq hTR, addSizeCol_eq hTC,
    addSizeCol_eq hTG, Option.bind_eq_bind, Option.some_bind]
  have hSF2 : "Selected_Facilities"
      ∉ (⟨df.cols, keptRows df m⟩ : DataFrame).cols := hSF
  simp only [setCol_fresh _ hSF2, List.map_map, zipAppendMap,
    DataFrame.getCol, List.findIdx?_append, hiTH, hiTR, hiTn, Option.or,
    Option.map_some', Option.bind_eq_bind, Option.some_bind, Option.pure_def,
    List.map_map, List.length_map, Option.some.injEq, CorrChart.mk.injEq,
    DataFrame.mk.injEq, Function.comp, Function.const, zero_add, gt_iff_lt,
    sizeOfRow, and_true, true_and]
  have hget : ∀ i : ℕ, i < df.cols.length → ∀ r ∈ keptRows df m, ∀ v : Value,
      (r ++ [v])[i]? = r[i]? := by
    intro i hi r hr v
    rw [List.getElem?_append, if_pos (by have := hkeptlen r hr; omega)]
  refine ⟨?_, ?_, ?_, ?_, ?_⟩
  · refine List.map_congr_left fun r hr => ?_
    simp [Function.comp, hget iTH hiTHlt r hr, cellVal, hiTH]
  · refine List.map_congr_left fun r hr => ?_
    simp [Function.comp, hget iTR hiTRlt r hr, cellVal, hiTR]
  · refine List.map_congr_left fun r hr => ?_
    simp [sizeOfRow]
  · refine List.map_congr_left fun r hr => ?_
    simp [Function.comp, hget iTn hiTnlt r hr, cellVal, hiTn]
  · refine if_congr Iff.rfl ?_ rfl
    refine congrArg some ?_
    congr 1
    · refine List.map_congr_left fun r hr => ?_
      simp [Function.comp, hget iTH hiTHlt r hr, cellVal, hiTH]
    · refine List.map_congr_left fun r hr => ?_
      simp [Function.comp, hget iTR hiTRlt r hr, cellVal, hiTR]

theorem zipMapSelf {α β : Type _} (f : α → β) :
    ∀ l : List α, (l.map f).zip l = l.map fun a => (f a, a)
  | [] => rfl
  | a :: t => by simp [zipMapSelf f t]

/-!
Claim theorems and their witnesses.
-/

/-- Concrete Aggregator input used by witnesses: three towns with hotel
flags and no other columns. -/
def dfAgg : DataFrame :=
  ⟨["Existence of hotels - exists", "Existence of hotels - does not exist"],
   [[Value.num 1, Value.num 0], [Value.num 1, Value.num 1],
    [Value.num 0, Value.num 1]]⟩

/-- C1: every Aggregator output row satisfies `Towns_With + Towns_Without
= Total_Towns`, and `Availability_Percentage` is `100·Towns_With /
Total_Towns` when the total is positive and exactly 0 when the total
is 0. -/
theorem aggregator_percentage_invariant (df : DataFrame) (s : CategorySummary)
    (hs : s ∈ process_infrastructure_data df) :
    s.towns_with + s.towns_without = s.total_towns
      ∧ (0 < s.total_towns →
          s.availability_percentage = 100 * s.towns_with / s.total_towns)
      ∧ (s.total_towns = 0 → s.availability_percentage = 0) := by
  simp only [process_infrastructure_data, List.mem_map] at hs
  obtain ⟨e, he, rfl⟩ := hs
  refine ⟨rfl, fun hpos => ?_, fun h0 => ?_⟩
  · dsimp only at hpos ⊢
    rw [if_pos hpos]
    ring
  · dsimp only at h0 ⊢
    rw [if_neg (by rw [h0]; exact lt_irrefl 0)]

/-- Witness for C1 at the concrete table `dfAgg` and its Hotels row. -/
theorem aggregator_percentage_invariant_witness :
    (2 : ℚ) + 2 = 4 ∧ ((0 : ℚ) < 4 → (50 : ℚ) = 100 * 2 / 4)
      ∧ ((4 : ℚ) = 0 → (50 : ℚ) = 0) :=
  aggregator_percentage_invariant dfAgg ⟨"Hotels", 2, 2, 4, 50⟩ (by
    simp [process_infrastructure_data, infrastructure_mapping, colSum,
      DataFrame.getCol, dfAgg, cellNum, List.findIdx?_cons]
    norm_num)

/-- C4: for every input table, including the empty one, the Aggregator
returns exactly one row per configured category in the fixed
configuration order, with count 0 on each side whose column is absent,
and raises no error. -/
theorem aggregator_total_fixed_order (df : DataFrame) :
    ((process_infrastructure_data df).map fun s => s.category)
        = ["Hotels", "Restaurants", "Cafes", "Guest Houses",
           "Tourist Attractions"]
    ∧ ∀ p ∈ (process_infrastructure_data df).zip infrastructure_mapping,
        p.1.category = p.2.1
          ∧ (p.2.2.1 ∉ df.cols → p.1.towns_with = 0)
          ∧ (p.2.2.2 ∉ df.cols → p.1.towns_without = 0) := by
  constructor
  · rfl
  · intro p hp
    rw [show process_infrastructure_data df
        = infrastructure_mapping.map (fun e =>
            let exists_count := if df.cols.contains e.2.1 then colSum df e.2.1 else 0
            let not_exists_count := if df.cols.contains e.2.2 then colSum df e.2.2 else 0
            let total := exists_count + not_exists_count
            let percentage := if total > 0 then exists_count / total * 100 else 0
            ⟨e.1, exists_count, not_exists_count, total, percentage⟩) from rfl,
      zipMapSelf] at hp
    simp only [List.mem_map] at hp
    obtain ⟨e, he, rfl⟩ := hp
    refine ⟨rfl, fun hab => ?_, fun hab => ?_⟩
    · dsimp only
      rw [if_neg (by simpa using hab)]
    · dsimp only
      rw [if_neg (by simpa using hab)]

/-- Empty input table. -/
def dfEmpty : DataFrame := ⟨[], []⟩

theorem aggregator_total_fixed_order_witness :
    (⟨"Hotels", 0, 0, 0, 0⟩ : CategorySummary).category = "Hotels"
      ∧ ("Existence of hotels - exists" ∉ dfEmpty.cols →
          (⟨"Hotels", 0, 0, 0, 0⟩ : CategorySummary).towns_with = 0)
      ∧ ("Existence of hotels - does not exist" ∉ dfEmpty.cols →
          (⟨"Hotels", 0, 0, 0, 0⟩ : CategorySummary).towns_without = 0) :=
  (aggregator_total_fixed_order dfEmpty).2
    (⟨"Hotels", 0, 0, 0, 0⟩,
     ("Hotels", "Existence of hotels - exists",
      "Existence of hotels - does not exist"))
    (by simp [process_infrastructure_data, infrastructure_mapping, colSum,
      DataFrame.getCol, dfEmpty, cellNum])

theorem cellVal_pfcExtend (cols : List String)
    (hfresh : ∀ c ∈ pfcDerivedCols, c ∉ cols) (r : List Value)
    (hlen : r.length = cols.length) :
    cellVal (cols ++ pfcDerivedCols) "Total_Hotels" (pfcExtend cols r)
        = Value.num (pfcCoerce cols "Total number of hotels" r)
    ∧ cellVal (cols ++ pfcDerivedCols) "Total_Restaurants" (pfcExtend cols r)
        = Value.num (pfcCoerce cols "Total number of restaurants" r)
    ∧ cellVal (cols ++ pfcDerivedCols) "Total_Cafes" (pfcExtend cols r)
        = Value.num (pfcCoerce cols "Total number of cafes" r)
    ∧ cellVal (cols ++ pfcDerivedCols) "Total_Guest_Houses" (pfcExtend cols r)
        = Value.num (pfcCoerce cols "Total number of guest houses" r)
    ∧ cellVal (cols ++ pfcDerivedCols) "Total_Facilities" (pfcExtend cols r)
        = Value.num (pfcTotal cols r) := by
  refine ⟨?_, ?_, ?_, ?_, ?_⟩
  · unfold cellVal pfcExtend
    rw [List.findIdx?_append,
      findIdx?_of_not_mem (hfresh "Total_Hotels" (by simp [pfcDerivedCols])),
      show List.findIdx? (· == "Total_Hotels") pfcDerivedCols = some 0 by rfl]
    simp only [Option.none_or, Option.map_some']
    rw [List.getD_append_right _ _ _ _ (by omega)]
    have h0 : 0 + cols.length - r.length = 0 := by omega
    rw [h0]
    rfl
  · unfold cellVal pfcExtend
    rw [List.findIdx?_append,
      findIdx?_of_not_mem (hfresh "Total_Restaurants" (by simp [pfcDerivedCols])),
      show List.findIdx? (· == "Total_Restaurants") pfcDerivedCols = some 1 by rfl]
    simp only [Option.none_or, Option.map_some']
    rw [List.getD_append_right _ _ _ _ (by omega)]
    have h0 : 1 + cols.length - r.length = 1 := by omega
    rw [h0]
    rfl
  · unfold cellVal pfcExtend
    rw [List.findIdx?_append,
      findIdx?_of_not_mem (hfresh "Total_Cafes" (by simp [pfcDerivedCols])),
      show List.findIdx? (· == "Total_Cafes") pfcDerivedCols = some 2 by rfl]
    simp only [Option.none_or, Option.map_some']
    rw [List.getD_append_right _ _ _ _ (by omega)]
    have h0 : 2 + cols.length - r.length = 2 := by omega
    rw [h0]
    rfl
  · unfold cellVal pfcExtend
    rw [List.findIdx?_append,
      findIdx?_of_not_mem (hfresh "Total_Guest_Houses" (by simp [pfcDerivedCols])),
      show List.findIdx? (· == "Total_Guest_Houses") pfcDerivedCols = some 3 by rfl]
    simp only [Option.none_or, Option.map_some']
    rw [List.getD_append_right _ _ _ _ (by omega)]
    have h0 : 3 + cols.length - r.length = 3 := by omega
    rw [h0]
    rfl
  · unfold cellVal pfcExtend
    rw [List.findIdx?_append,
      findIdx?_of_not_mem (hfresh "Total_Facilities" (by simp [pfcDerivedCols])),
      show List.findIdx? (· == "Total_Facilities") pfcDerivedCols = some 4 by rfl]
    simp only [Option.none_or, Option.map_some']
    rw [List.getD_append_right _ _ _ _ (by omega)]
    have h0 : 4 + cols.length - r.length = 4 := by omega
    rw [h0]
    rfl

/-- Facility-count table with the hotels column entirely absent. -/
def dfNoHotels : DataFrame :=
  ⟨["Town", "Total number of restaurants", "Total number of cafes",
    "Total number of guest houses"],
   [[Value.str "A", Value.num 1, Value.num 1, Value.num 1]]⟩

/-- C2 counterexample: on a table missing the hotels count column, the
derivation does not return normally; it fails with the missing-column
error. -/
theorem pfc_missing_column_counterexample :
    process_facility_counts dfNoHotels = none := by
  simp [process_facility_counts, DataFrame.getCol, dfNoHotels,
    List.findIdx?_cons]

/-- C2 (amended): the facility-count derivation returns normally exactly
when all four expected numeric columns are present; an absent column is
a missing-column error, not a zero-valued column. -/
theorem pfc_missing_column_is_error (df : DataFrame) :
    (process_facility_counts df).isSome = true ↔
      ("Total number of hotels" ∈ df.cols
        ∧ "Total number of restaurants" ∈ df.cols
        ∧ "Total number of cafes" ∈ df.cols
        ∧ "Total number of guest houses" ∈ df.cols) :=
  process_facility_counts_isSome_iff df

/-- C7 (amended): on a well-formed table with all four count columns,
a non-numeric placeholder cell is coerced to 0 and the derivation does
not fail; the affected row appears in the output (extended with its
coerced counts and total) exactly when its coerced total is positive. -/
theorem pfc_placeholder_coerced (df : DataFrame) (hWF : df.WF)
    (hfresh : ∀ c ∈ pfcDerivedCols, c ∉ df.cols)
    (out : DataFrame) (hout : process_facility_counts df = some out)
    (r : List Value) (hr : r ∈ df.rows) (s : String) :
    toNumericFill0 (Value.str s) = 0
      ∧ (pfcExtend df.cols r ∈ out.rows ↔ 0 < pfcTotal df.cols r) := by
  have hiss : (process_facility_counts df).isSome = true := by
    rw [hout]; rfl
  obtain ⟨h1, h2, h3, h4⟩ := (process_facility_counts_isSome_iff df).1 hiss
  rw [process_facility_counts_eq df hWF h1 h2 h3 h4 hfresh] at hout
  obtain rfl := (Option.some.inj hout).symm
  refine ⟨rfl, ?_, ?_⟩
  · intro hmem
    simp only [List.mem_map] at hmem
    obtain ⟨a, ha, heq⟩ := hmem
    have hlen : a.length = r.length := by
      rw [hWF a (List.mem_of_mem_filter ha), hWF r hr]
    have heq2 : a = r := by
      unfold pfcExtend at heq
      exact (List.append_inj heq hlen).1
    subst heq2
    simpa using List.of_mem_filter ha
  · intro hpos
    exact List.mem_map_of_mem _ (List.mem_filter.2 ⟨hr, by simpa using hpos⟩)

/-- C8: every output row of the facility-count derivation has
`Total_Facilities` equal to the sum of its four coerced counts, and that
total is positive. -/
theorem pfc_output_total_invariant (df : DataFrame) (hWF : df.WF)
    (hfresh : ∀ c ∈ pfcDerivedCols, c ∉ df.cols)
    (out : DataFrame) (hout : process_facility_counts df = some out)
    (r : List Value) (hr : r ∈ out.rows) :
    cellNum (cellVal out.cols "Total_Facilities" r)
        = cellNum (cellVal out.cols "Total_Hotels" r)
          + cellNum (cellVal out.cols "Total_Restaurants" r)
          + cellNum (cellVal out.cols "Total_Cafes" r)
          + cellNum (cellVal out.cols "Total_Guest_Houses" r)
      ∧ 0 < cellNum (cellVal out.cols "Total_Facilities" r) := by
  have hiss : (process_facility_counts df).isSome = true := by
    rw [hout]; rfl
  obtain ⟨h1, h2, h3, h4⟩ := (process_facility_counts_isSome_iff df).1 hiss
  rw [process_facility_counts_eq df hWF h1 h2 h3 h4 hfresh] at hout
  obtain rfl := (Option.some.inj hout).symm
  dsimp only at hr ⊢
  simp only [List.mem_map] at hr
  obtain ⟨a, ha, rfl⟩ := hr
  have hlen : a.length = df.cols.length := hWF a (List.mem_of_mem_filter ha)
  obtain ⟨eTH, eTR, eTC, eTG, eTF⟩ := cellVal_pfcExtend df.cols hfresh a hlen
  rw [eTF, eTH, eTR, eTC, eTG]
  refine ⟨rfl, ?_⟩
  simpa using List.of_mem_filter ha

/-- One-town table whose only nonzero count cell is a non-numeric
placeholder. -/
def dfPlaceholderOnly : DataFrame :=
  ⟨["Town", "Total number of hotels", "Total number of restaurants",
    "Total number of cafes", "Total number of guest houses"],
   [[Value.str "A", Value.str "N/A", Value.num 0, Value.num 0,
     Value.num 0]]⟩

/-- C7 counterexample: the placeholder row's coerced total is 0, so the
derivation returns normally but the affected row is NOT included. -/
theorem pfc_placeholder_row_dropped :
    (process_facility_counts dfPlaceholderOnly).map DataFrame.rows
      = some [] := by
  simp [process_facility_counts, DataFrame.getCol, DataFrame.setCol,
    DataFrame.filterByCol, dfPlaceholderOnly, toNumericFill0, cellNum,
    List.findIdx?_cons]

/-- One-town table with a placeholder hotel count and a positive
restaurant count. -/
def dfStr : DataFrame :=
  ⟨["Town", "Total number of hotels", "Total number of restaurants",
    "Total number of cafes", "Total number of guest houses"],
   [[Value.str "A", Value.str "N/A", Value.num 2, Value.num 0,
     Value.num 0]]⟩

/-- Row of `dfStr`. -/
def rowStr : List Value :=
  [Value.str "A", Value.str "N/A", Value.num 2, Value.num 0, Value.num 0]

/-- Output of the derivation on `dfStr`. -/
def outStr : DataFrame :=
  ⟨["Town", "Total number of hotels", "Total number of restaurants",
    "Total number of cafes", "Total number of guest houses",
    "Total_Hotels", "Total_Restaurants", "Total_Cafes",
    "Total_Guest_Houses", "Total_Facilities"],
   [[Value.str "A", Value.str "N/A", Value.num 2, Value.num 0, Value.num 0,
     Value.num 0, Value.num 2, Value.num 0, Value.num 0, Value.num 2]]⟩

/-- Witness for C7 at `dfStr`: the placeholder coerces to 0, the call
succeeds, and the row (coerced total 2 > 0) is included. -/
theorem pfc_placeholder_coerced_witness :
    toNumericFill0 (Value.str "N/A") = 0
      ∧ (pfcExtend dfStr.cols rowStr ∈ outStr.rows
          ↔ 0 < pfcTotal dfStr.cols rowStr) :=
  pfc_placeholder_coerced dfStr
    (by intro r hr; simp [dfStr] at hr; simp [hr, dfStr])
    (by simp [pfcDerivedCols, dfStr])
    outStr
    (by simp [process_facility_counts, DataFrame.getCol, DataFrame.setCol,
      DataFrame.filterByCol, dfStr, outStr, toNumericFill0, cellNum,
      List.findIdx?_cons])
    rowStr (by simp [dfStr, rowStr]) "N/A" 

/-- The row of `outStr`. -/
def rowStrExt : List Value :=
  [Value.str "A", Value.str "N/A", Value.num 2, Value.num 0, Value.num 0,
   Value.num 0, Value.num 2, Value.num 0, Value.num 0, Value.num 2]

/-- Witness for C8 at `dfStr` and the single output row of `outStr`. -/
theorem pfc_output_total_invariant_witness :
    cellNum (cellVal outStr.cols "Total_Facilities" rowStrExt)
        = cellNum (cellVal outStr.cols "Total_Hotels" rowStrExt)
          + cellNum (cellVal outStr.cols "Total_Restaurants" rowStrExt)
          + cellNum (cellVal outStr.cols "Total_Cafes" rowStrExt)
          + cellNum (cellVal outStr.cols "Total_Guest_Houses" rowStrExt)
      ∧ 0 < cellNum (cellVal outStr.cols "Total_Facilities" rowStrExt) :=
  pfc_output_total_invariant dfStr
    (by intro r hr; simp [dfStr] at hr; simp [hr, dfStr])
    (by simp [pfcDerivedCols, dfStr])
    outStr
    (by simp [process_facility_counts, DataFrame.getCol, DataFrame.setCol,
      DataFrame.filterByCol, dfStr, outStr, toNumericFill0, cellNum,
      List.findIdx?_cons])
    rowStrExt (by simp [outStr, rowStrExt])

/-- C3: the Correlator attaches the Pearson/trend statistics exactly when
the correlation option is on and more than one row passes the filter;
with fewer than two rows they are absent (`none`), not zero and not an
error. -/
theorem correlator_stats_present_iff (df : DataFrame) (hWF : df.WF)
    (hTH : "Total_Hotels" ∈ df.cols) (hTR : "Total_Restaurants" ∈ df.cols)
    (hTC : "Total_Cafes" ∈ df.cols) (hTG : "Total_Guest_Houses" ∈ df.cols)
    (hTF : "Total_Facilities" ∈ df.cols) (hTown : "Town" ∈ df.cols)
    (hSF : "Selected_Facilities" ∉ df.cols)
    (m : ℚ) (types : List String) (sc : Bool) (res : CorrChart)
    (hres : create_facility_correlation_chart df m types sc = some res) :
    res.stats = if sc ∧ 1 < (keptRows df m).length
        then some (mkTrendStats res.xs res.ys) else none := by
  rw [create_facility_correlation_chart_eq df hWF hTH hTR hTC hTG hTF hTown
    hSF m types sc] at hres
  obtain rfl := (Option.some.inj hres).symm
  rfl

/-- C5: the Correlator's output table appends only the
`Selected_Facilities` column to the input columns, and its rows are
exactly the input rows whose `Total_Facilities` cell passes the `≥`
threshold, in input order, each keeping all its original fields. -/
theorem correlator_filter_passthrough (df : DataFrame) (hWF : df.WF)
    (hTH : "Total_Hotels" ∈ df.cols) (hTR : "Total_Restaurants" ∈ df.cols)
    (hTC : "Total_Cafes" ∈ df.cols) (hTG : "Total_Guest_Houses" ∈ df.cols)
    (hTF : "Total_Facilities" ∈ df.cols) (hTown : "Town" ∈ df.cols)
    (hSF : "Selected_Facilities" ∉ df.cols)
    (m : ℚ) (types : List String) (sc : Bool) (res : CorrChart)
    (hres : create_facility_correlation_chart df m types sc = some res) :
    res.filtered.cols = df.cols ++ ["Selected_Facilities"]
      ∧ res.filtered.rows.map (List.take df.cols.length) = keptRows df m
      ∧ keptRows df m
          = df.rows.filter fun r =>
              valGe (cellVal df.cols "Total_Facilities" r) m := by
  rw [create_facility_correlation_chart_eq df hWF hTH hTR hTC hTG hTF hTown
    hSF m types sc] at hres
  obtain rfl := (Option.some.inj hres).symm
  refine ⟨rfl, ?_, rfl⟩
  dsimp only
  rw [List.map_map]
  have hid : ∀ r ∈ keptRows df m,
      (List.take df.cols.length ∘ fun r =>
        r ++ [Value.num (sizeOfRow df.cols types r)]) r = id r := by
    intro r hr
    simp [Function.comp, List.take_left' (hWF r (List.mem_of_mem_filter hr))]
  rw [List.map_congr_left hid, List.map_id]

/-- Concrete facility-count table fed to the Correlator in witnesses. -/
def dfCorr : DataFrame :=
  ⟨["Town", "Total_Hotels", "Total_Restaurants", "Total_Cafes",
    "Total_Guest_Houses", "Total_Facilities"],
   [[Value.str "A", Value.num 1, Value.num 2, Value.num 0, Value.num 0,
     Value.num 3],
    [Value.str "B", Value.num 3, Value.num 6, Value.num 0, Value.num 0,
     Value.num 9]]⟩

/-- The Correlator's result on `dfCorr` with threshold 0, no selected
types and correlation on. -/
def resCorr : CorrChart :=
  { xs := [1, 3], ys := [2, 6], sizes := [0, 0],
    towns := [Value.str "A", Value.str "B"],
    stats := some (mkTrendStats [1, 3] [2, 6]),
    filtered :=
      ⟨["Town", "Total_Hotels", "Total_Restaurants", "Total_Cafes",
        "Total_Guest_Houses", "Total_Facilities", "Selected_Facilities"],
       [[Value.str "A", Value.num 1, Value.num 2, Value.num 0, Value.num 0,
         Value.num 3, Value.num 0],
        [Value.str "B", Value.num 3, Value.num 6, Value.num 0, Value.num 0,
         Value.num 9, Value.num 0]]⟩ }

/-- Evaluation of the Correlator on `dfCorr`. -/
theorem resCorr_eval :
    create_facility_correlation_chart dfCorr 0 [] true = some resCorr := by
  simp [create_facility_correlation_chart, DataFrame.filterByCol,
    DataFrame.getCol, DataFrame.setCol, addSizeCol, dfCorr, resCorr,
    valGe, cellNum, List.findIdx?_cons, mkTrendStats]

/-- Witness for C3 at `dfCorr` (both rows pass, correlation enabled). -/
theorem correlator_stats_present_iff_witness :
    resCorr.stats = if True ∧ 1 < (keptRows dfCorr 0).length
        then some (mkTrendStats resCorr.xs resCorr.ys) else none :=
  correlator_stats_present_iff dfCorr
    (by intro r hr; simp [dfCorr] at hr; rcases hr with h | h <;> simp [h, dfCorr])
    (by simp [dfCorr]) (by simp [dfCorr]) (by simp [dfCorr])
    (by simp [dfCorr]) (by simp [dfCorr]) (by simp [dfCorr])
    (by simp [dfCorr]) 0 [] true resCorr resCorr_eval

/-- Witness for C5 at `dfCorr` with threshold 0. -/
theorem correlator_filter_passthrough_witness :
    resCorr.filtered.cols = dfCorr.cols ++ ["Selected_Facilities"]
      ∧ resCorr.filtered.rows.map (List.take dfCorr.cols.length)
          = keptRows dfCorr 0
      ∧ keptRows dfCorr 0
          = dfCorr.rows.filter fun r =>
              valGe (cellVal dfCorr.cols "Total_Facilities" r) 0 :=
  correlator_filter_passthrough dfCorr
    (by intro r hr; simp [dfCorr] at hr; rcases hr with h | h <;> simp [h, dfCorr])
    (by simp [dfCorr]) (by simp [dfCorr]) (by simp [dfCorr])
    (by simp [dfCorr]) (by simp [dfCorr]) (by simp [dfCorr])
    (by simp [dfCorr]) 0 [] true resCorr resCorr_eval

/-- Raw counts table for the spec's worked example: hotels 1 and 3,
restaurants 2 and 6, other counts zero. -/
def dfC6raw : DataFrame :=
  ⟨["Town", "Total number of hotels", "Total number of restaurants",
    "Total number of cafes", "Total number of guest houses"],
   [[Value.str "A", Value.num 1, Value.num 2, Value.num 0, Value.num 0],
    [Value.str "B", Value.num 3, Value.num 6, Value.num 0, Value.num 0]]⟩

/-- C6: on the spec's worked example (hotels 1 and 3, restaurants 2 and
6, other counts zero) with threshold 0, both rows are retained, the
trend fit has slope 2 and intercept 0, and the Pearson coefficient is
exactly 1. -/
theorem correlator_perfect_linear_example :
    ((process_facility_counts dfC6raw).bind fun d =>
        create_facility_correlation_chart d 0 [] true).map
        (fun r => (r.filtered.rows.length, r.stats))
      = some (2, some (mkTrendStats [1, 3] [2, 6]))
    ∧ (mkTrendStats [1, 3] [2, 6]).slope = 2
    ∧ (mkTrendStats [1, 3] [2, 6]).intercept = 0
    ∧ pearson (mkTrendStats [1, 3] [2, 6]) = 1 := by
  have h : mkTrendStats [1, 3] [2, 6] = ⟨4, 2, 8, 2, 0⟩ := by
    norm_num [mkTrendStats, covSum, varSum, seriesMean]
  refine ⟨?_, by rw [h], by rw [h], ?_⟩
  · simp [process_facility_counts, create_facility_correlation_chart,
      DataFrame.filterByCol, DataFrame.getCol, DataFrame.setCol, addSizeCol,
      dfC6raw, valGe, cellNum, toNumericFill0, List.findIdx?_cons,
      mkTrendStats]
    norm_num
    simp [List.filter, mkTrendStats, cellNum]
  · rw [h]
    unfold pearson
    push_cast
    rw [← Real.sqrt_mul (by norm_num : (0:ℝ) ≤ 2) 8]
    rw [show ((2:ℝ) * 8 : ℝ) = 4 ^ 2 from by norm_num]
    rw [Real.sqrt_sq (by norm_num : (0:ℝ) ≤ 4)]
    norm_num

/-- Two-town facility table whose hotel series is constant. -/
def dfConst : DataFrame :=
  ⟨["Town", "Total_Hotels", "Total_Restaurants", "Total_Cafes",
    "Total_Guest_Houses", "Total_Facilities"],
   [[Value.str "A", Value.num 5, Value.num 1, Value.num 0, Value.num 0,
     Value.num 6],
    [Value.str "B", Value.num 5, Value.num 7, Value.num 0, Value.num 0,
     Value.num 12]]⟩

/-- C10: with correlation on and two retained rows whose hotel series is
constant, the Correlator still attaches the statistics, whose Pearson
denominator √varX·√varY is 0 (a zero-variance division, NaN in floating
point); no guard distinguishes this degenerate case. -/
theorem correlator_zero_variance_unguarded :
    ((create_facility_correlation_chart dfConst 0 [] true).map fun r =>
        r.stats) = some (some (mkTrendStats [5, 5] [1, 7]))
      ∧ (mkTrendStats [5, 5] [1, 7]).varX = 0
      ∧ Real.sqrt ((mkTrendStats [5, 5] [1, 7]).varX : ℝ)
          * Real.sqrt ((mkTrendStats [5, 5] [1, 7]).varY : ℝ) = 0 := by
  have h : mkTrendStats [5, 5] [1, 7] = ⟨0, 0, 18, 0, 4⟩ := by
    norm_num [mkTrendStats, covSum, varSum, seriesMean]
  refine ⟨?_, by rw [h], ?_⟩
  · simp [create_facility_correlation_chart, DataFrame.filterByCol,
      DataFrame.getCol, DataFrame.setCol, addSizeCol, dfConst, valGe,
      cellNum, List.findIdx?_cons, mkTrendStats]
  · rw [h]
    push_cast
    simp

/-!
Reference-store model for the frame claim: Python tables live behind
references; a variable holds a reference, `df.copy()` allocates a fresh
reference with a copied table, and a column assignment
`df_processed[c] = vals` mutates the table behind the reference it was
called on.  Had the source omitted `.copy()`, the assignments would hit
the caller's table; the model makes that distinction observable.
-/

/-- Heap of tables addressed by numeric references. -/
abbrev Store := List (ℕ × DataFrame)

/-- Table behind a reference. -/
def storeGet (s : Store) (r : ℕ) : Option DataFrame :=
  (s.find? fun p => p.1 == r).map fun p => p.2

/-- In-place mutation of the table behind a reference. -/
def storeSet (s : Store) (r : ℕ) (df : DataFrame) : Store :=
  s.map fun p => if p.1 == r then (r, df) else p

theorem storeGet_cons_ne {s : Store} {r r' : ℕ} {df : DataFrame}
    (h : r' ≠ r) : storeGet ((r, df) :: s) r' = storeGet s r' := by
  simp only [storeGet, List.find?]
  rw [show ((r, df).1 == r') = false from by simpa using fun hc => h hc.symm]

theorem storeGet_set_ne {r r' : ℕ} (s : Store) (df : DataFrame)
    (h : r' ≠ r) : storeGet (storeSet s r df) r' = storeGet s r' := by
  induction s with
  | nil => rfl
  | cons p t ih =>
      simp only [storeSet, List.map, storeGet, List.find?] at ih ⊢
      by_cases hp : p.1 = r
      · rw [if_pos (by simpa using hp)]
        rw [show ((r, df).1 == r') = false from by
          simpa using fun hc => h hc.symm]
        rw [show (p.1 == r') = false from by
          rw [hp]; simpa using fun hc => h hc.symm]
        exact ih
      · rw [if_neg (by simpa using hp)]
        cases hpr : (p.1 == r') with
        | true => rfl
        | false => exact ih

/-- Stateful Aggregator: reads the table behind `dfRef`; the source only
reads `df`, so the store is returned unchanged. -/
def process_infrastructure_data_st (s : Store) (dfRef : ℕ) :
    Option (Store × List CategorySummary) := do
  let df ← storeGet s dfRef
  return (s, process_infrastructure_data df)

/-- One column assignment of the derivation: read the table behind
`ref`, read its source column, coerce, and mutate the table in place
with the derived column. -/
def pfcAssign (s : Store) (ref : ℕ) (src dst : String) : Option Store := do
  let dfp ← storeGet s ref
  let vals ← dfp.getCol src
  return storeSet s ref
    (dfp.setCol dst ((vals.map toNumericFill0).map Value.num))

/-- The `Total_Facilities` assignment: sums the four derived columns of
the table behind `ref` and mutates it in place. -/
def pfcTotalsAssign (s : Store) (ref : ℕ) : Option Store := do
  let dfp ← storeGet s ref
  let th ← dfp.getCol "Total_Hotels"
  let tr ← dfp.getCol "Total_Restaurants"
  let tc ← dfp.getCol "Total_Cafes"
  let tg ← dfp.getCol "Total_Guest_Houses"
  let totals := ((th.map cellNum).zip ((tr.map cellNum).zip
    ((tc.map cellNum).zip (tg.map cellNum)))).map
    fun t => t.1 + t.2.1 + t.2.2.1 + t.2.2.2
  return storeSet s ref
    (dfp.setCol "Total_Facilities" (totals.map Value.num))

/-- Stateful facility-count derivation: `df_processed = df.copy()`
allocates `copyRef`; each of the five column assignments reads the table
behind `copyRef` and mutates it in place; the filtered table is returned
by value. -/
def process_facility_counts_st (s : Store) (dfRef copyRef : ℕ) :
    Option (Store × DataFrame) := do
  let df ← storeGet s dfRef
  let s1 : Store := (copyRef, df) :: s
  let s2 ← pfcAssign s1 copyRef "Total number of hotels" "Total_Hotels"
  let s3 ← pfcAssign s2 copyRef "Total number of restaurants"
    "Total_Restaurants"
  let s4 ← pfcAssign s3 copyRef "Total number of cafes" "Total_Cafes"
  let s5 ← pfcAssign s4 copyRef "Total number of guest houses"
    "Total_Guest_Houses"
  let s6 ← pfcTotalsAssign s5 copyRef
  let dfp6 ← storeGet s6 copyRef
  let out ← dfp6.filterByCol "Total_Facilities" fun v => cellNum v > 0
  return (s6, out)

theorem storeGet_pfcAssign_ne {s s' : Store} {ref r' : ℕ} {src dst : String}
    (h : pfcAssign s ref src dst = some s') (hne : r' ≠ ref) :
    storeGet s' r' = storeGet s r' := by
  simp only [pfcAssign, Option.bind_eq_bind, Option.pure_def,
    Option.bind_eq_some, Option.some.injEq] at h
  obtain ⟨dfp, hdfp, vals, hvals, rfl⟩ := h
  exact storeGet_set_ne _ _ hne

theorem storeGet_pfcTotalsAssign_ne {s s' : Store} {ref r' : ℕ}
    (h : pfcTotalsAssign s ref = some s') (hne : r' ≠ ref) :
    storeGet s' r' = storeGet s r' := by
  simp only [pfcTotalsAssign, Option.bind_eq_bind, Option.pure_def,
    Option.bind_eq_some, Option.some.injEq] at h
  obtain ⟨dfp, hdfp, th, hth, tr, htr, tc, htc, tg, htg, rfl⟩ := h
  exact storeGet_set_ne _ _ hne

/-- C9: neither function mutates the caller's table: after either call,
the table behind the input reference is unchanged (the derivation only
allocates and mutates the fresh copy). -/
theorem no_input_table_mutation (s : Store) (dfRef copyRef : ℕ)
    (hne : copyRef ≠ dfRef)
    (sA : Store) (outA : List CategorySummary)
    (hA : process_infrastructure_data_st s dfRef = some (sA, outA))
    (sB : Store) (outB : DataFrame)
    (hB : process_facility_counts_st s dfRef copyRef = some (sB, outB)) :
    storeGet sA dfRef = storeGet s dfRef
      ∧ storeGet sB dfRef = storeGet s dfRef := by
  constructor
  · simp only [process_infrastructure_data_st, Option.bind_eq_bind,
      Option.pure_def, Option.bind_eq_some, Option.some.injEq] at hA
    obtain ⟨df, hdf, h1, h2⟩ := hA
    rfl
  · simp only [process_facility_counts_st, Option.bind_eq_bind,
      Option.pure_def, Option.bind_eq_some, Option.some.injEq] at hB
    obtain ⟨df, hdf, s2, hs2, s3, hs3, s4, hs4, s5, hs5, s6, hs6,
      dfp6, hdfp6, out, hout, hS, hO⟩ := hB
    have hd := Ne.symm hne
    rw [storeGet_pfcTotalsAssign_ne hs6 hd, storeGet_pfcAssign_ne hs5 hd,
      storeGet_pfcAssign_ne hs4 hd, storeGet_pfcAssign_ne hs3 hd,
      storeGet_pfcAssign_ne hs2 hd, storeGet_cons_ne hd]

/-- Concrete input table for the C9 witness: the four count columns with
no rows. -/
def dfC9 : DataFrame :=
  ⟨["Total number of hotels", "Total number of restaurants",
    "Total number of cafes", "Total number of guest houses"], []⟩

/-- The fully derived copy of `dfC9`. -/
def dfC9full : DataFrame :=
  ⟨["Total number of hotels", "Total number of restaurants",
    "Total number of cafes", "Total number of guest houses",
    "Total_Hotels", "Total_Restaurants", "Total_Cafes",
    "Total_Guest_Houses", "Total_Facilities"], []⟩

/-- Initial store for the C9 witness: the input table behind reference 0. -/
def storeC9 : Store := [(0, dfC9)]

/-- Store after the derivation: the mutated copy behind reference 1, the
input table untouched behind reference 0. -/
def storeC9' : Store := [(1, dfC9full), (0, dfC9)]


/-- Evaluation of the stateful derivation on the witness store. -/
theorem storeC9_eval :
    process_facility_counts_st storeC9 0 1 = some (storeC9', dfC9full) := by
  simp only [process_facility_counts_st, Option.bind_eq_bind]
  rw [show storeGet storeC9 0 = some dfC9 from by simp [storeGet, storeC9]]
  simp only [Option.some_bind]
  rw [show pfcAssign ((1, dfC9) :: storeC9) 1 "Total number of hotels"
      "Total_Hotels"
      = some [(1, ⟨dfC9.cols ++ ["Total_Hotels"], []⟩), (0, dfC9)] from by
    simp [pfcAssign, storeGet, storeSet, storeC9, DataFrame.getCol,
      DataFrame.setCol, dfC9, toNumericFill0, List.findIdx?_cons, List.find?]]
  simp only [Option.some_bind]
  rw [show pfcAssign [(1, ⟨dfC9.cols ++ ["Total_Hotels"], []⟩), (0, dfC9)] 1
      "Total number of restaurants" "Total_Restaurants"
      = some [(1, ⟨dfC9.cols ++ ["Total_Hotels", "Total_Restaurants"], []⟩),
              (0, dfC9)] from by
    simp [pfcAssign, storeGet, storeSet, storeC9, DataFrame.getCol,
      DataFrame.setCol, dfC9, toNumericFill0, List.findIdx?_cons, List.find?]]
  simp only [Option.some_bind]
  rw [show pfcAssign
      [(1, ⟨dfC9.cols ++ ["Total_Hotels", "Total_Restaurants"], []⟩),
       (0, dfC9)] 1 "Total number of cafes" "Total_Cafes"
      = some [(1, ⟨dfC9.cols
            ++ ["Total_Hotels", "Total_Restaurants", "Total_Cafes"], []⟩),
              (0, dfC9)] from by
    simp [pfcAssign, storeGet, storeSet, storeC9, DataFrame.getCol,
      DataFrame.setCol, dfC9, toNumericFill0, List.findIdx?_cons, List.find?]]
  simp only [Option.some_bind]
  rw [show pfcAssign
      [(1, ⟨dfC9.cols
          ++ ["Total_Hotels", "Total_Restaurants", "Total_Cafes"], []⟩),
       (0, dfC9)] 1 "Total number of guest houses" "Total_Guest_Houses"
      = some [(1, ⟨dfC9.cols ++ ["Total_Hotels", "Total_Restaurants",
              "Total_Cafes", "Total_Guest_Houses"], []⟩), (0, dfC9)] from by
    simp [pfcAssign, storeGet, storeSet, storeC9, DataFrame.getCol,
      DataFrame.setCol, dfC9, toNumericFill0, List.findIdx?_cons, List.find?]]
  simp only [Option.some_bind]
  rw [show pfcTotalsAssign
      [(1, ⟨dfC9.cols ++ ["Total_Hotels", "Total_Restaurants", "Total_Cafes",
            "Total_Guest_Houses"], []⟩), (0, dfC9)] 1
      = some [(1, dfC9full), (0, dfC9)] from by
    simp [pfcTotalsAssign, storeGet, storeSet, storeC9, DataFrame.getCol,
      DataFrame.setCol, dfC9, dfC9full, cellNum, List.findIdx?_cons,
      List.find?]]
  simp only [Option.some_bind]
  rw [show storeGet [(1, dfC9full), (0, dfC9)] 1 = some dfC9full from by
    simp [storeGet, List.find?]]
  simp only [Option.some_bind]
  rw [show dfC9full.filterByCol "Total_Facilities"
      (fun v => decide (cellNum v > 0)) = some dfC9full from by
    simp [DataFrame.filterByCol, dfC9full, List.findIdx?_cons]]
  simp only [Option.some_bind, Option.pure_def, Option.some.injEq,
    storeC9']



/-- Witness for C9 at the concrete store `storeC9`. -/
theorem no_input_table_mutation_witness :
    storeGet storeC9 0 = storeGet storeC9 0
      ∧ storeGet storeC9' 0 = storeGet storeC9 0 :=
  no_input_table_mutation storeC9 0 1 (by decide) storeC9
    (process_infrastructure_data dfC9)
    (by simp [process_infrastructure_data_st, storeGet, storeC9])
    storeC9' dfC9full storeC9_eval
